import Mathlib

/-!
Shallow embedding of the resilient Microsoft Graph client of
`office_assistant` (`graph_client.py` and `tools/_helpers.py`), together
with theorems settling the specification claims about it.

Modelling conventions:
* machine integers are `Nat`/`Int` (no overflow is relevant here);
* JSON bodies are the `Json` inductive below; a body that is absent or not
  valid JSON is `Option.none`;
* the fields the code reads as strings (upstream error `code`, `message`,
  header values) are modelled as string-or-absent, which is the wire
  convention of the upstream API that the Python code assumes (a non-string
  value in those positions would be a dynamic type error in the source,
  a path none of the claims exercise);
* time is integer seconds; `email.utils.parsedate_to_datetime` composed
  with the UTC coercion of `_parse_retry_after` is an oracle
  `String → Option Int` giving the parsed date as epoch seconds;
* the wire is an oracle `Nat → HttpResponse` giving the response to the
  i-th HTTP request issued by one logical call, and the token provider's
  re-acquisition outcome is a `Bool` (`false` models
  `AuthenticationRequired` being raised by `_auth_headers`).
-/

set_option autoImplicit false

namespace OfficeAssistant

/-- JSON values, as returned by `httpx.Response.json()`. -/
inductive Json where
  | null
  | bool (b : Bool)
  | num (n : Int)
  | str (s : String)
  | arr (xs : List Json)
  | obj (fields : List (String × Json))

namespace Json

/-- Python `d.get(k)` on a dict-shaped value: `none` for a missing key or a
non-object value. -/
def getField : Json → String → Option Json
  | .obj fields, k => fields.lookup k
  | _, _ => none

/-- Replace the value of key `k` (first occurrence), or append the binding
when the key is absent — `d[k] = v` on a Python dict. -/
def setField : Json → String → Json → Json
  | .obj fields, k, v =>
    .obj (if (fields.lookup k).isSome
      then fields.map fun kv => if kv.1 = k then (k, v) else kv
      else fields ++ [(k, v)])
  | j, _, _ => j

/-- Remove the binding of key `k` — `d.pop(k, None)` on a Python dict. -/
def removeField : Json → String → Json
  | .obj fields, k => .obj (fields.filter fun kv => kv.1 ≠ k)
  | j, _ => j

end Json

/-- ASCII whitespace stripped by Python's `int(str)`. -/
def pyIsSpace (c : Char) : Bool :=
  c = ' ' || c = '\t' || c = '\n' || c = '\r' || c = '\x0b' || c = '\x0c'

/-- Strip leading and trailing whitespace, as `int(str)` does before
parsing. -/
def pyStrip (cs : List Char) : List Char :=
  ((cs.dropWhile pyIsSpace).reverse.dropWhile pyIsSpace).reverse

/-- Value of a run of decimal digits in which single underscores may
separate digits (CPython's decimal grammar for `int`).  The flag records
whether the previous character was an underscore (or the run is at its
start), in which case a further underscore — or running out of input —
is a parse error. -/
def intDigits : List Char → Bool → Nat → Option Nat
  | [], afterSep, acc => if afterSep then none else some acc
  | c :: rest, afterSep, acc =>
    if c.isDigit then intDigits rest false (acc * 10 + (c.toNat - 48))
    else if c = '_' && !afterSep then intDigits rest true acc
    else none

/-- Model of Python's builtin `int(value)` on a string: optional
surrounding whitespace, an optional sign, then a nonempty digit run
(underscore grouping allowed).  `none` models `ValueError`. -/
def pyInt (s : String) : Option Int :=
  match pyStrip s.toList with
  | '+' :: rest => (intDigits rest true 0).map Int.ofNat
  | '-' :: rest => (intDigits rest true 0).map (fun n => -(Int.ofNat n))
  | cs => (intDigits cs true 0).map Int.ofNat

/-! ### Constants of `graph_client.py` -/

/-- Constant `_MAX_RETRIES`. -/
def MAX_RETRIES : Nat := 3

/-- Constant `_RETRY_STATUS_CODES`. -/
def RETRY_STATUS_CODES : List Nat := [429, 503, 504]

/-- Constant `_BASE_BACKOFF_SECONDS` (1.0 seconds; delays stay integral here since
the retry-after branch is integral and the backoff is `1 * 2 ^ attempt`). -/
def BASE_BACKOFF_SECONDS : Int := 1

/-- Constant `_AUTH_FAILURE_CODES`. -/
def AUTH_FAILURE_CODES : List String := ["invalidauthenticationtoken", "unauthorized"]

/-- The parts of an `httpx.Response` that `graph_client.py` inspects.
`body` is the result of `resp.json()` (`none` when that raises
`ValueError`); `contentEmpty` is whether `resp.content` is the empty byte
string; the two request-id headers are kept separately because the code
combines them with Python `or`. -/
structure HttpResponse where
  status : Nat
  retryAfterHeader : Option String := none
  requestIdHeader : Option String := none
  msRequestIdHeader : Option String := none
  body : Option Json := none
  contentEmpty : Bool := true

/-- Predicate `httpx.Response.is_error`: `400 <= status_code <= 599`. -/
def isErrorStatus (status : Nat) : Bool := 400 ≤ status && status ≤ 599

/-- Structure `GraphApiError` (the NormalizedError of the spec). -/
structure GraphApiError where
  status_code : Nat
  message : String
  code : Option String := none
  request_id : Option String := none
  retry_after_seconds : Option Int := none

/-- Python `a or b` on optional strings (`None` and `""` are falsy). -/
def pyOrStr : Option String → Option String → Option String
  | some a, b => if a = "" then b else some a
  | none, b => b

/-- Model of `GraphClient._parse_retry_after`.  `parsedate` is the
date-parsing oracle (see the module docstring); `now` is
`datetime.now(UTC)` in epoch seconds. -/
def parse_retry_after (parsedate : String → Option Int) (now : Int) :
    Option String → Option Int
  | none => none
  | some v =>
    match pyInt v with
    | some n => some (max n 0)
    | none =>
      match parsedate v with
      | some retryAt => some (max (retryAt - now) 0)
      | none => none

/-- The generic message `f"HTTP {status}"`. -/
def httpFallbackMessage (status : Nat) : String := s!"HTTP {status}"

/-- Model of `GraphClient._raise_graph_error`, as the `GraphApiError` it
constructs (the raising itself is the `graphError` constructor of
`CallResult` below). -/
def build_graph_error (parsedate : String → Option Int) (now : Int)
    (resp : HttpResponse) : GraphApiError :=
  let fallback := httpFallbackMessage resp.status
  let requestId := pyOrStr resp.requestIdHeader resp.msRequestIdHeader
  let retryAfter := parse_retry_after parsedate now resp.retryAfterHeader
  match resp.body with
  | some (Json.obj fields) =>
    match fields.lookup "error" with
    | some (Json.obj errFields) =>
      let code := match errFields.lookup "code" with
        | some (Json.str s) => some s
        | _ => none
      -- `err.get("message") or message`: an absent or empty (falsy)
      -- envelope message falls back to the generic message.
      let message := match errFields.lookup "message" with
        | some (Json.str s) => if s = "" then fallback else s
        | _ => fallback
      ⟨resp.status, message, code, requestId, retryAfter⟩
    | _ =>
      -- `isinstance(payload.get("message"), str)`: no truthiness check,
      -- an empty top-level message string is taken as-is.
      match fields.lookup "message" with
      | some (Json.str s) => ⟨resp.status, s, none, requestId, retryAfter⟩
      | _ => ⟨resp.status, fallback, none, requestId, retryAfter⟩
  | _ => ⟨resp.status, fallback, none, requestId, retryAfter⟩

/-- ASCII lower-casing of one character, as Python `str.lower()` acts on
the ASCII error codes of the upstream API. -/
def lowerChar (c : Char) : Char :=
  if 'A' ≤ c ∧ c ≤ 'Z' then Char.ofNat (c.toNat + 32) else c

/-- Python `s.lower()` (on the ASCII strings this code handles). -/
def pyLower (s : String) : String :=
  String.mk (s.toList.map lowerChar)

/-- Python `s.startswith(pre)`. -/
def pyStartsWith (s pre : String) : Bool :=
  pre.toList.isPrefixOf s.toList

/-- The lower-cased upstream error code that `_is_auth_failure` extracts
from a response body: `(payload.get("error", {}).get("code", "")).lower()`
with non-dict intermediate values degrading to `""`. -/
def errorCodeLower (resp : HttpResponse) : String :=
  match resp.body with
  | some payload =>
    let error := match payload with
      | Json.obj fields => (fields.lookup "error").getD (Json.obj [])
      | _ => Json.obj []
    match error with
    | Json.obj errFields =>
      match (errFields.lookup "code").getD (Json.str "") with
      | Json.str s => pyLower s
      | _ => ""
    | _ => ""
  | none => ""

/-- Model of `GraphClient._is_auth_failure`. -/
def is_auth_failure (resp : HttpResponse) : Bool :=
  if resp.status = 401 then true
  else if resp.status ≠ 403 then false
  else
    match resp.body with
    | none => false
    | some _ => AUTH_FAILURE_CODES.contains (errorCodeLower resp)

/-! ### The resilient request executor (`_request_with_retry`) -/

/-- Observable events of one logical call, in order: the HTTP requests it
issues (numbered by the wire index), calls to `clear_cache()`, calls to
`_auth_headers()` made for re-acquisition after a cache clear (emitted
whether or not the re-acquisition succeeds), and backoff sleeps with their
delay in seconds. -/
inductive Event where
  | httpRequest (idx : Nat)
  | clearCache
  | authHeadersCall
  | backoffSleep (delay : Int)

/-- The environment one logical call runs against: `wire i` is the
response to the i-th HTTP request the call issues; `reauthOk` is whether
`_auth_headers()` succeeds when re-invoked after a cache clear (`false`
models it raising `AuthenticationRequired`); `parsedate`/`now` feed
`parse_retry_after`. -/
structure Env where
  wire : Nat → HttpResponse
  reauthOk : Bool
  parsedate : String → Option Int
  now : Int

/-- The retry delay of one transient attempt: the parsed `Retry-After`
header when present, else exponential backoff `base * 2 ** attempt`. -/
def backoffDelay (env : Env) (resp : HttpResponse) (attempt : Nat) : Int :=
  match parse_retry_after env.parsedate env.now resp.retryAfterHeader with
  | some d => d
  | none => BASE_BACKOFF_SECONDS * 2 ^ attempt

/-- The body of the `for attempt in range(_MAX_RETRIES)` loop of
`_request_with_retry`, by recursion on the number of remaining iterations.
Arguments: remaining iterations, current `attempt` index, next wire index,
and the `resp` seen by the line after the loop (the last response, `none`
before the first request).  Returns the event trace, the response the
function returns (`none` models the unreachable `RuntimeError` branch),
and the next wire index. -/
def requestLoop (env : Env) :
    Nat → Nat → Nat → Option HttpResponse →
    List Event × Option HttpResponse × Nat
  | 0, _attempt, reqIdx, last => ([], last, reqIdx)
  | remaining + 1, attempt, reqIdx, _last =>
    let resp := env.wire reqIdx
    if attempt = 0 && is_auth_failure resp then
      -- clear_cache(); headers = await self._auth_headers()
      if env.reauthOk then
        let rest := requestLoop env remaining (attempt + 1) (reqIdx + 1) (some resp)
        (.httpRequest reqIdx :: .clearCache :: .authHeadersCall :: rest.1, rest.2)
      else
        -- AuthenticationRequired: return the original failing response.
        ([.httpRequest reqIdx, .clearCache, .authHeadersCall], some resp, reqIdx + 1)
    else if RETRY_STATUS_CODES.contains resp.status then
      let delay := backoffDelay env resp attempt
      let rest := requestLoop env remaining (attempt + 1) (reqIdx + 1) (some resp)
      (.httpRequest reqIdx :: .backoffSleep delay :: rest.1, rest.2)
    else
      ([.httpRequest reqIdx], some resp, reqIdx + 1)

/-- Model of `_request_with_retry`, starting at wire index `reqIdx`
(the initial `_auth_headers()` call before the loop is outside the model:
an `AuthenticationRequired` raised there propagates before any request is
issued, which none of the claims concern). -/
def request_with_retry (env : Env) (reqIdx : Nat) :
    List Event × Option HttpResponse × Nat :=
  requestLoop env MAX_RETRIES 0 reqIdx none

/-- Number of HTTP requests in a trace. -/
def countRequests (t : List Event) : Nat :=
  (t.filter fun e => match e with | .httpRequest _ => true | _ => false).length

/-- Number of `clear_cache()` calls in a trace. -/
def countClears (t : List Event) : Nat :=
  (t.filter fun e => match e with | .clearCache => true | _ => false).length

/-- Number of re-acquisition `_auth_headers()` calls in a trace. -/
def countReacquires (t : List Event) : Nat :=
  (t.filter fun e => match e with | .authHeadersCall => true | _ => false).length

/-- Number of backoff sleeps in a trace. -/
def countSleeps (t : List Event) : Nat :=
  (t.filter fun e => match e with | .backoffSleep _ => true | _ => false).length

/-! ### The public surface (`get`, `get_all`, `post`, `patch`, `delete`) -/

/-- Outcome of one public-surface call: a returned JSON body, a raised
`GraphApiError`, a raised `ValueError` from `resp.json()` on a success
response whose body is not valid JSON, or the unreachable no-response
branch. -/
inductive CallResult where
  | ok (body : Json)
  | graphError (e : GraphApiError)
  | jsonDecodeError
  | noResponse

/-- Runs `_ensure_success` composed with the body handling shared by the
verbs: run the executor, raise on an error status, then finish with
`done` on the final successful response. -/
def runVerb (env : Env) (reqIdx : Nat)
    (done : HttpResponse → CallResult) :
    List Event × CallResult × Nat :=
  let run := request_with_retry env reqIdx
  match run.2.1 with
  | none => (run.1, .noResponse, run.2.2)
  | some resp =>
    if isErrorStatus resp.status then
      (run.1, .graphError (build_graph_error env.parsedate env.now resp), run.2.2)
    else
      (run.1, done resp, run.2.2)

/-- Python `resp.json()` as the verbs use it on a success response. -/
def jsonBody (resp : HttpResponse) : CallResult :=
  match resp.body with
  | some j => .ok j
  | none => .jsonDecodeError

/-- Model of `GraphClient.get`. -/
def get (env : Env) (reqIdx : Nat) : List Event × CallResult × Nat :=
  runVerb env reqIdx jsonBody

/-- Model of `GraphClient.post`: a 202 status or empty byte body is an
empty successful result. -/
def post (env : Env) (reqIdx : Nat) : List Event × CallResult × Nat :=
  runVerb env reqIdx fun resp =>
    if resp.status = 202 || resp.contentEmpty then .ok (Json.obj [])
    else jsonBody resp

/-- Model of `GraphClient.patch`: only an empty byte body is treated as
an empty successful result. -/
def patch (env : Env) (reqIdx : Nat) : List Event × CallResult × Nat :=
  runVerb env reqIdx fun resp =>
    if resp.contentEmpty then .ok (Json.obj [])
    else jsonBody resp

/-- Model of `GraphClient.delete` (returns `None`). -/
def deleteVerb (env : Env) (reqIdx : Nat) : List Event × CallResult × Nat :=
  runVerb env reqIdx fun _ => .ok Json.null

/-- Python `list(data.get("value", []))` — the items array of a page (dict with
an array under `"value"`); degenerately `[]` when the key is absent. -/
def Json.items (d : Json) : List Json :=
  match d.getField "value" with
  | some (Json.arr xs) => xs
  | _ => []

/-- Python `data.get("@odata.nextLink")` as tested for truthiness by the
`while next_link` loop: the cursor string when present and non-empty. -/
def Json.nextLinkField (d : Json) : Option String :=
  match d.getField "@odata.nextLink" with
  | some (Json.str s) => if s = "" then none else some s
  | _ => none

/-- The `while next_link and pages < max_pages` loop of `get_all`, by
recursion on `max_pages - pages`.  Accumulates the items of each fetched
page; a failing page fetch propagates (`Except.error`).  Returns the
accumulated items with the leftover cursor, and the next wire index. -/
def getAllLoop (env : Env) :
    Nat → Nat → Option String → List Json →
    List Event × Except CallResult (List Json × Option String) × Nat
  | 0, reqIdx, nl, acc => ([], .ok (acc, nl), reqIdx)
  | _fuel + 1, reqIdx, none, acc => ([], .ok (acc, none), reqIdx)
  | fuel + 1, reqIdx, some _link, acc =>
    let page := get env reqIdx
    match page.2.1 with
    | .ok pageData =>
      let rest := getAllLoop env fuel page.2.2 pageData.nextLinkField (acc ++ pageData.items)
      (page.1 ++ rest.1, rest.2)
    | failure => (page.1, .error failure, page.2.2)

/-- Model of `GraphClient.get_all`: fetch the first page, follow
`@odata.nextLink` cursors up to `maxPages` pages, then return the first
page's object with the merged `"value"` list and the cursor key removed. -/
def get_all (env : Env) (reqIdx : Nat) (maxPages : Nat := 10) :
    List Event × CallResult × Nat :=
  let first := get env reqIdx
  match first.2.1 with
  | .ok data =>
    let rest := getAllLoop env (maxPages - 1) first.2.2 data.nextLinkField data.items
    match rest.2.1 with
    | .ok collected =>
      (first.1 ++ rest.1,
        .ok (((data.setField "value" (Json.arr collected.1)).removeField "@odata.nextLink")),
        rest.2.2)
    | .error failure => (first.1 ++ rest.1, failure, rest.2.2)
  | failure => (first.1, failure, first.2.2)

/-! ### The tool layer's error classification (`tools/_helpers.py`) -/

/-- The response shape `graph_error_response` builds.  `error` is the
human-readable message; optional fields are omitted (`none`) exactly when
the Python code omits the key from the payload dict. -/
structure ToolErrorPayload where
  error : String
  errorType : String
  statusCode : Nat
  errorCode : Option String := none
  requestId : Option String := none
  retryAfterSeconds : Option Int := none

/-- Python `fallback_message or default` (`None` and `""` are falsy). -/
def pyOrElse (a : Option String) (b : String) : String :=
  match a with
  | some s => if s = "" then b else s
  | none => b

/-- An optional string field included only when truthy
(`if exc.code:` — `None` and `""` are both omitted). -/
def truthyOpt (a : Option String) : Option String :=
  match a with
  | some s => if s = "" then none else some s
  | none => none

/-- Model of `graph_error_response` in `tools/_helpers.py`. -/
def graph_error_response (exc : GraphApiError)
    (fallbackMessage : Option String := none) : ToolErrorPayload :=
  let code := pyLower (exc.code.getD "")
  let (errorType, message) :=
    if exc.status_code = 401 || ["invalidauthenticationtoken", "unauthorized"].contains code then
      ("auth_error",
        pyOrElse fallbackMessage "Authentication failed. Run /calendar-setup to sign in again.")
    else if exc.status_code = 403 || ["erroraccessdenied", "accessdenied"].contains code then
      ("permission_denied",
        pyOrElse fallbackMessage "You don't have permission to perform this action.")
    else if exc.status_code = 404 || ["erroritemnotfound", "resourcenotfound"].contains code then
      ("not_found", pyOrElse fallbackMessage "The requested resource was not found.")
    else if exc.status_code = 429 then
      ("throttled",
        pyOrElse fallbackMessage "Microsoft Graph is rate-limiting requests. Please retry.")
    else if exc.status_code = 400 || pyStartsWith code "errorinvalid" then
      ("validation_error", pyOrElse fallbackMessage exc.message)
    else
      ("graph_error", pyOrElse fallbackMessage exc.message)
  { error := message
    errorType := errorType
    statusCode := exc.status_code
    errorCode := truthyOpt exc.code
    requestId := truthyOpt exc.request_id
    retryAfterSeconds := exc.retry_after_seconds }

/-! ### Scenario fixtures and reference functions -/

/-- The trace of a run whose every attempt hits a transient status:
request, sleep, request, sleep, … -/
def transientTrace (env : Env) : Nat → Nat → Nat → List Event
  | 0, _attempt, _reqIdx => []
  | n + 1, attempt, reqIdx =>
    .httpRequest reqIdx :: .backoffSleep (backoffDelay env (env.wire reqIdx) attempt) ::
      transientTrace env n (attempt + 1) (reqIdx + 1)

/-- A wire response carrying one page of a paginated listing. -/
def respOf (p : Json) : HttpResponse :=
  { status := 200, body := some p, contentEmpty := false }

/-- Reference rendering of the pagination loop: starting from page
`reqIdx` with cursor state `nl` and accumulator `acc`, follow cursors for
at most `fuel` further pages; yields the accumulated items, the leftover
cursor, and the number of pages fetched. -/
def collectPages (pgs : Nat → Json) :
    Nat → Nat → Option String → List Json → List Json × Option String × Nat
  | 0, _reqIdx, nl, acc => (acc, nl, 0)
  | _fuel + 1, _reqIdx, none, acc => (acc, none, 0)
  | fuel + 1, reqIdx, some _, acc =>
    let rest := collectPages pgs fuel (reqIdx + 1)
      (pgs reqIdx).nextLinkField (acc ++ (pgs reqIdx).items)
    (rest.1, rest.2.1, rest.2.2 + 1)

/-- A throttled response. -/
def r429 : HttpResponse := { status := 429 }

/-- A plain not-found response. -/
def r404 : HttpResponse := { status := 404 }

/-- An expired-token 401 response. -/
def r401 : HttpResponse :=
  { status := 401,
    body := some (.obj [("error",
      .obj [("code", .str "InvalidAuthenticationToken"), ("message", .str "Token expired")])]),
    contentEmpty := false }

/-- A success response. -/
def r200 : HttpResponse :=
  { status := 200, body := some (.obj [("displayName", .str "Robert")]), contentEmpty := false }

/-- A genuine permission-denied 403 response. -/
def r403ad : HttpResponse :=
  { status := 403,
    body := some (.obj [("error",
      .obj [("code", .str "ErrorAccessDenied"), ("message", .str "nope")])]),
    contentEmpty := false }

/-- A non-transient failure distinct from the 401, for the auth-retry
scenario in which the retried request fails differently. -/
def r400code : HttpResponse :=
  { status := 400,
    body := some (.obj [("error",
      .obj [("code", .str "SomeOtherCode"), ("message", .str "different failure")])]),
    contentEmpty := false }

/-- Every request is throttled. -/
def envT : Env := { wire := fun _ => r429, reauthOk := true, parsedate := fun _ => none, now := 0 }

/-- The first request fails with a plain 404. -/
def env404 : Env := { wire := fun _ => r404, reauthOk := true, parsedate := fun _ => none, now := 0 }

/-- A 401 then success: the auth-retry scenario. -/
def envAuth : Env :=
  { wire := fun i => if i = 0 then r401 else r200,
    reauthOk := true, parsedate := fun _ => none, now := 0 }

/-- A 401 whose re-acquisition itself raises `AuthenticationRequired`. -/
def envAuthFail : Env :=
  { wire := fun i => if i = 0 then r401 else r200,
    reauthOk := false, parsedate := fun _ => none, now := 0 }

/-- A 429 then a 401: an auth failure arriving after a transient retry. -/
def envLateAuth : Env :=
  { wire := fun i => if i = 0 then r429 else r401,
    reauthOk := true, parsedate := fun _ => none, now := 0 }

/-- Every request is denied with `ErrorAccessDenied`. -/
def env403 : Env := { wire := fun _ => r403ad, reauthOk := true, parsedate := fun _ => none, now := 0 }

/-- A 401, successful re-acquisition, then a different non-transient
failure on the retried request. -/
def envRetryFails : Env :=
  { wire := fun i => if i = 0 then r401 else r400code,
    reauthOk := true, parsedate := fun _ => none, now := 0 }

/-- First page: one item and a cursor. -/
def pg0 : Json := .obj [("value", .arr [.str "x"]), ("@odata.nextLink", .str "L")]

/-- Second page: one item, no cursor. -/
def pg1 : Json := .obj [("value", .arr [.str "y"])]

/-- Two pages, the second without a cursor. -/
def pgsA : Nat → Json := fun i => if i = 0 then pg0 else pg1

/-- Wire serving `pgsA`. -/
def envPagesA : Env :=
  { wire := fun i => respOf (pgsA i), reauthOk := true, parsedate := fun _ => none, now := 0 }

/-- Every page carries a further cursor. -/
def pgsB : Nat → Json := fun _ => pg0

/-- Wire serving `pgsB`. -/
def envPagesB : Env :=
  { wire := fun i => respOf (pgsB i), reauthOk := true, parsedate := fun _ => none, now := 0 }

/-- A 400 whose error envelope carries a code and an empty message. -/
def respEnvEmptyMsg : HttpResponse :=
  { status := 400,
    body := some (.obj [("error", .obj [("code", .str "X"), ("message", .str "")])]) }

/-- A 400 with a top-level message and no nested error object. -/
def respTopMsg : HttpResponse :=
  { status := 400, body := some (.obj [("message", .str "Bad request parameter")]) }

/-- A 502 whose body is not valid JSON. -/
def respBad : HttpResponse := { status := 502 }

/-- A 202 acknowledgement that nevertheless carries a JSON body. -/
def r202body : HttpResponse :=
  { status := 202, body := some (.obj [("a", .num 1)]), contentEmpty := false }

/-- A 202 acknowledgement with an empty byte body. -/
def r202empty : HttpResponse := { status := 202, body := none, contentEmpty := true }

/-- Wire serving `r202body`. -/
def env202 : Env :=
  { wire := fun _ => r202body, reauthOk := true, parsedate := fun _ => none, now := 0 }

/-- Wire serving `r202empty`. -/
def env202e : Env :=
  { wire := fun _ => r202empty, reauthOk := true, parsedate := fun _ => none, now := 0 }

/-- A genuine access-denied error, as raised by the client. -/
def excAD : GraphApiError :=
  { status_code := 403, message := "m", code := some "ErrorAccessDenied" }

/-! ## Lemmas about the embedding -/

theorem countRequests_nil : countRequests [] = 0 := rfl

theorem countClears_nil : countClears [] = 0 := rfl

theorem countReacquires_nil : countReacquires [] = 0 := rfl

theorem countSleeps_nil : countSleeps [] = 0 := rfl

theorem countRequests_cons (e : Event) (t : List Event) :
    countRequests (e :: t) =
      countRequests t + (match e with | .httpRequest _ => 1 | _ => 0) := by
  cases e <;> simp [countRequests, List.filter_cons]

theorem countClears_cons (e : Event) (t : List Event) :
    countClears (e :: t) =
      countClears t + (match e with | .clearCache => 1 | _ => 0) := by
  cases e <;> simp [countClears, List.filter_cons]

theorem countReacquires_cons (e : Event) (t : List Event) :
    countReacquires (e :: t) =
      countReacquires t + (match e with | .authHeadersCall => 1 | _ => 0) := by
  cases e <;> simp [countReacquires, List.filter_cons]

theorem countSleeps_cons (e : Event) (t : List Event) :
    countSleeps (e :: t) =
      countSleeps t + (match e with | .backoffSleep _ => 1 | _ => 0) := by
  cases e <;> simp [countSleeps, List.filter_cons]

theorem countRequests_append (a b : List Event) :
    countRequests (a ++ b) = countRequests a + countRequests b := by
  simp [countRequests, List.filter_append]

/-- A transient status is never classified as an auth failure. -/
theorem transient_not_auth (resp : HttpResponse)
    (h : RETRY_STATUS_CODES.contains resp.status = true) :
    is_auth_failure resp = false := by
  have h' : resp.status = 429 ∨ resp.status = 503 ∨ resp.status = 504 := by
    simpa [RETRY_STATUS_CODES] using h
  rcases h' with h' | h' | h' <;> simp [is_auth_failure, h']

theorem countRequests_transientTrace (env : Env) :
    ∀ n attempt reqIdx, countRequests (transientTrace env n attempt reqIdx) = n := by
  intro n
  induction n with
  | zero => intro attempt reqIdx; rfl
  | succ n ih =>
    intro attempt reqIdx
    simp [transientTrace, countRequests_cons, ih (attempt + 1) (reqIdx + 1)]

theorem countSleeps_transientTrace (env : Env) :
    ∀ n attempt reqIdx, countSleeps (transientTrace env n attempt reqIdx) = n := by
  intro n
  induction n with
  | zero => intro attempt reqIdx; rfl
  | succ n ih =>
    intro attempt reqIdx
    simp [transientTrace, countSleeps_cons, ih (attempt + 1) (reqIdx + 1)]

theorem transientTrace_getLast (env : Env) :
    ∀ n attempt reqIdx, ∃ d,
      (transientTrace env (n + 1) attempt reqIdx).getLast? = some (.backoffSleep d) := by
  intro n
  induction n with
  | zero => intro attempt reqIdx; exact ⟨_, rfl⟩
  | succ n ih =>
    intro attempt reqIdx
    obtain ⟨d, hd⟩ := ih (attempt + 1) (reqIdx + 1)
    refine ⟨d, ?_⟩
    simp only [transientTrace] at hd ⊢
    rwa [List.getLast?_cons_cons, List.getLast?_cons_cons]

/-- One unfolding of the loop body, as a plain equation. -/
theorem requestLoop_succ_def (env : Env) (n attempt reqIdx : Nat)
    (last : Option HttpResponse) :
    requestLoop env (n + 1) attempt reqIdx last =
      if attempt = 0 && is_auth_failure (env.wire reqIdx) then
        if env.reauthOk then
          (.httpRequest reqIdx :: .clearCache :: .authHeadersCall ::
              (requestLoop env n (attempt + 1) (reqIdx + 1) (some (env.wire reqIdx))).1,
            (requestLoop env n (attempt + 1) (reqIdx + 1) (some (env.wire reqIdx))).2)
        else
          ([.httpRequest reqIdx, .clearCache, .authHeadersCall],
            some (env.wire reqIdx), reqIdx + 1)
      else if RETRY_STATUS_CODES.contains (env.wire reqIdx).status then
        (.httpRequest reqIdx ::
            .backoffSleep (backoffDelay env (env.wire reqIdx) attempt) ::
              (requestLoop env n (attempt + 1) (reqIdx + 1) (some (env.wire reqIdx))).1,
          (requestLoop env n (attempt + 1) (reqIdx + 1) (some (env.wire reqIdx))).2)
      else ([.httpRequest reqIdx], some (env.wire reqIdx), reqIdx + 1) :=
  rfl

/-- A run whose every attempt hits a transient status issues all its
requests, sleeps after each of them (the last included), and ends with
the last response. -/
theorem requestLoop_transient (env : Env) :
    ∀ (n : Nat), ∀ (attempt reqIdx : Nat) (last : Option HttpResponse),
    (∀ i, i ≤ n → RETRY_STATUS_CODES.contains (env.wire (reqIdx + i)).status = true) →
    requestLoop env (n + 1) attempt reqIdx last =
      (transientTrace env (n + 1) attempt reqIdx,
        some (env.wire (reqIdx + n)), reqIdx + n + 1) := by
  intro n
  induction n with
  | zero =>
    intro attempt reqIdx last h
    have h0 : RETRY_STATUS_CODES.contains (env.wire reqIdx).status = true := by
      simpa using h 0 (Nat.le_refl 0)
    have hna : is_auth_failure (env.wire reqIdx) = false := transient_not_auth _ h0
    rw [requestLoop_succ_def, if_neg (by simp [hna]), if_pos h0]
    simp [requestLoop, transientTrace]
  | succ n ih =>
    intro attempt reqIdx last h
    have h0 : RETRY_STATUS_CODES.contains (env.wire reqIdx).status = true := by
      simpa using h 0 (Nat.zero_le _)
    have hna : is_auth_failure (env.wire reqIdx) = false := transient_not_auth _ h0
    have hrest := ih (attempt + 1) (reqIdx + 1) (some (env.wire reqIdx))
      (fun i hi => by
        have := h (i + 1) (Nat.succ_le_succ hi)
        simpa [Nat.add_comm, Nat.add_assoc, Nat.add_left_comm] using this)
    have harith : reqIdx + 1 + n = reqIdx + (n + 1) := by omega
    rw [harith] at hrest
    rw [requestLoop_succ_def, if_neg (by simp [hna]), if_pos h0, hrest]
    simp [transientTrace]

/-- From the second attempt on, the loop never clears the token cache nor
re-acquires headers. -/
theorem requestLoop_no_auth_events (env : Env) :
    ∀ (n : Nat), ∀ (a reqIdx : Nat) (last : Option HttpResponse),
    countClears (requestLoop env n (a + 1) reqIdx last).1 = 0 ∧
    countReacquires (requestLoop env n (a + 1) reqIdx last).1 = 0 := by
  intro n
  induction n with
  | zero => intro a reqIdx last; exact ⟨rfl, rfl⟩
  | succ n ih =>
    intro a reqIdx last
    rw [requestLoop_succ_def, if_neg (by simp)]
    by_cases hc : RETRY_STATUS_CODES.contains (env.wire reqIdx).status = true
    · rw [if_pos hc]
      have := ih (a + 1) (reqIdx + 1) (some (env.wire reqIdx))
      constructor
      · simp [countClears_cons, this.1]
      · simp [countReacquires_cons, this.2]
    · rw [if_neg hc]
      exact ⟨rfl, rfl⟩

/-- A response that is neither an auth failure (or arrives at attempt
index ≥ 1) nor transient is returned immediately after one request. -/
theorem requestLoop_terminal (env : Env) (n attempt reqIdx : Nat)
    (last : Option HttpResponse)
    (hna : attempt ≠ 0 ∨ is_auth_failure (env.wire reqIdx) = false)
    (hnt : RETRY_STATUS_CODES.contains (env.wire reqIdx).status = false) :
    requestLoop env (n + 1) attempt reqIdx last =
      ([.httpRequest reqIdx], some (env.wire reqIdx), reqIdx + 1) := by
  rw [requestLoop_succ_def]
  rcases hna with hna | hna
  · rw [if_neg (by simp [hna]), if_neg (by rw [hnt]; simp)]
  · rw [if_neg (by simp [hna]), if_neg (by rw [hnt]; simp)]

/-- The executor always produces a response (`MAX_RETRIES > 0`). -/
theorem requestLoop_isSome (env : Env) :
    ∀ (n : Nat), ∀ (attempt reqIdx : Nat) (last : Option HttpResponse),
    ((requestLoop env (n + 1) attempt reqIdx last).2.1).isSome = true := by
  intro n
  induction n with
  | zero =>
    intro attempt reqIdx last
    rw [requestLoop_succ_def]
    by_cases h1 : (attempt = 0 && is_auth_failure (env.wire reqIdx)) = true
    · rw [if_pos h1]
      by_cases h2 : env.reauthOk = true
      · rw [if_pos h2]; rfl
      · rw [if_neg h2]; rfl
    · rw [if_neg h1]
      by_cases h2 : RETRY_STATUS_CODES.contains (env.wire reqIdx).status = true
      · rw [if_pos h2]; rfl
      · rw [if_neg h2]; rfl
  | succ n ih =>
    intro attempt reqIdx last
    rw [requestLoop_succ_def]
    by_cases h1 : (attempt = 0 && is_auth_failure (env.wire reqIdx)) = true
    · rw [if_pos h1]
      by_cases h2 : env.reauthOk = true
      · rw [if_pos h2]
        exact ih (attempt + 1) (reqIdx + 1) (some (env.wire reqIdx))
      · rw [if_neg h2]; rfl
    · rw [if_neg h1]
      by_cases h2 : RETRY_STATUS_CODES.contains (env.wire reqIdx).status = true
      · rw [if_pos h2]
        exact ih (attempt + 1) (reqIdx + 1) (some (env.wire reqIdx))
      · rw [if_neg h2]; rfl

/-! ### Pagination lemmas -/

/-- On a wire of successful pages, `get` issues exactly one request and
returns the page. -/
theorem get_ok (env : Env) (pgs : Nat → Json)
    (hw : ∀ i, env.wire i = respOf (pgs i)) (reqIdx : Nat) :
    get env reqIdx = ([.httpRequest reqIdx], .ok (pgs reqIdx), reqIdx + 1) := by
  have hrun : request_with_retry env reqIdx =
      ([.httpRequest reqIdx], some (env.wire reqIdx), reqIdx + 1) :=
    requestLoop_terminal env 2 0 reqIdx none
      (Or.inr (by rw [hw]; rfl)) (by rw [hw]; rfl)
  unfold get runVerb
  rw [hrun, hw reqIdx]
  rfl

/-- On a wire of successful pages the pagination loop is `collectPages`:
it requests consecutive wire indices, accumulates the items in order, and
never fails. -/
theorem getAllLoop_ok (env : Env) (pgs : Nat → Json)
    (hw : ∀ i, env.wire i = respOf (pgs i)) :
    ∀ (fuel reqIdx : Nat) (nl : Option String) (acc : List Json),
    getAllLoop env fuel reqIdx nl acc =
      ((List.range' reqIdx (collectPages pgs fuel reqIdx nl acc).2.2).map .httpRequest,
        .ok ((collectPages pgs fuel reqIdx nl acc).1,
             (collectPages pgs fuel reqIdx nl acc).2.1),
        reqIdx + (collectPages pgs fuel reqIdx nl acc).2.2) := by
  intro fuel
  induction fuel with
  | zero => intro reqIdx nl acc; simp [getAllLoop, collectPages]
  | succ fuel ih =>
    intro reqIdx nl acc
    cases nl with
    | none => simp [getAllLoop, collectPages]
    | some link =>
      have hstep := ih (reqIdx + 1) (pgs reqIdx).nextLinkField (acc ++ (pgs reqIdx).items)
      simp only [getAllLoop, collectPages, get_ok env pgs hw reqIdx, hstep,
        Prod.mk.injEq, List.range'_succ, List.map_cons, List.singleton_append]
      exact ⟨trivial, trivial, by omega⟩

/-- Removing a key from a JSON object removes it from lookups. -/
theorem lookup_filter_ne (k : String) :
    ∀ (fields : List (String × Json)),
    ((fields.filter fun kv => kv.1 ≠ k).lookup k) = none := by
  intro fields
  induction fields with
  | nil => rfl
  | cons kv rest ih =>
    by_cases h : kv.1 = k
    · rw [List.filter_cons, if_neg (by simp [h])]
      exact ih
    · rw [List.filter_cons, if_pos (by simp [h])]
      have hbeq : (k == kv.1) = false :=
        beq_eq_false_iff_ne.mpr fun he => h he.symm
      rw [List.lookup, hbeq]
      exact ih

/-- Removing a key via `removeField` removes it from lookups. -/
theorem removeField_getField (d : Json) (k : String) :
    (d.removeField k).getField k = none := by
  cases d with
  | obj fields => exact lookup_filter_ne k fields
  | null => rfl
  | bool b => rfl
  | num n => rfl
  | str s => rfl
  | arr xs => rfl

/-- Bridge between the public executor and the loop at its literal fuel. -/
theorem request_with_retry_def (env : Env) (reqIdx : Nat) :
    request_with_retry env reqIdx = requestLoop env (2 + 1) 0 reqIdx none := rfl

/-! ### Concrete scenarios -/

/-! ## The claims -/

/-- C1: if every response of a logical request has a transient status
(429, 503 or 504) the executor issues at most `MAX_RETRIES = 3` requests
(exactly 3) and returns the last response; and if the first response is
neither transient nor an auth failure, it returns it after exactly one
request. -/
theorem claim_C1 :
    (∀ env : Env,
      (∀ i, i < MAX_RETRIES → RETRY_STATUS_CODES.contains (env.wire i).status = true) →
      countRequests (request_with_retry env 0).1 = MAX_RETRIES ∧
      (request_with_retry env 0).2.1 = some (env.wire (MAX_RETRIES - 1))) ∧
    (∀ env : Env,
      RETRY_STATUS_CODES.contains (env.wire 0).status = false →
      is_auth_failure (env.wire 0) = false →
      countRequests (request_with_retry env 0).1 = 1 ∧
      (request_with_retry env 0).2.1 = some (env.wire 0)) := by
  constructor
  · intro env h
    have hrun := requestLoop_transient env 2 0 0 none
      (fun i hi => by simpa using h i (by simp only [MAX_RETRIES]; omega))
    rw [request_with_retry_def, hrun]
    exact ⟨countRequests_transientTrace env (2 + 1) 0 0, rfl⟩
  · intro env hnt hna
    have hrun := requestLoop_terminal env 2 0 0 none (Or.inr hna) hnt
    rw [request_with_retry_def, hrun]
    exact ⟨rfl, rfl⟩

theorem claim_C1_witness :
    (countRequests (request_with_retry envT 0).1 = MAX_RETRIES ∧
      (request_with_retry envT 0).2.1 = some (envT.wire (MAX_RETRIES - 1))) ∧
    (countRequests (request_with_retry env404 0).1 = 1 ∧
      (request_with_retry env404 0).2.1 = some (env404.wire 0)) :=
  ⟨claim_C1.1 envT (fun _ _ => rfl), claim_C1.2 env404 rfl rfl⟩

/-- C2: the token cache is cleared and headers re-acquired exactly once
when (and only when) the first response is an auth failure — regardless
of how the retried request fares — and an auth failure on a later attempt
never triggers a clear or re-acquisition. -/
theorem claim_C2 : ∀ env : Env,
    countClears (request_with_retry env 0).1 =
      (if is_auth_failure (env.wire 0) then 1 else 0) ∧
    countReacquires (request_with_retry env 0).1 =
      (if is_auth_failure (env.wire 0) then 1 else 0) := by
  intro env
  rw [request_with_retry_def, requestLoop_succ_def]
  by_cases haf : is_auth_failure (env.wire 0) = true
  · rw [if_pos (by simp [haf])]
    by_cases hok : env.reauthOk = true
    · rw [if_pos hok]
      have hz := requestLoop_no_auth_events env 2 0 (0 + 1) (some (env.wire 0))
      exact ⟨by simp [countClears_cons, countClears_nil, haf, hz.1],
             by simp [countReacquires_cons, countReacquires_nil, haf, hz.2]⟩
    · rw [if_neg hok]
      exact ⟨by simp [countClears_cons, countClears_nil, haf],
             by simp [countReacquires_cons, countReacquires_nil, haf]⟩
  · have haf' : is_auth_failure (env.wire 0) = false := by simpa using haf
    rw [if_neg (by simp [haf'])]
    by_cases hc : RETRY_STATUS_CODES.contains (env.wire 0).status = true
    · rw [if_pos hc]
      have hz := requestLoop_no_auth_events env 2 0 (0 + 1) (some (env.wire 0))
      exact ⟨by simp [countClears_cons, countClears_nil, haf', hz.1],
             by simp [countReacquires_cons, countReacquires_nil, haf', hz.2]⟩
    · rw [if_neg hc]
      exact ⟨by simp [countClears_cons, countClears_nil, haf'],
             by simp [countReacquires_cons, countReacquires_nil, haf']⟩

theorem claim_C2_witness :
    (countClears (request_with_retry envAuth 0).1 =
        (if is_auth_failure (envAuth.wire 0) then 1 else 0) ∧
      countReacquires (request_with_retry envAuth 0).1 =
        (if is_auth_failure (envAuth.wire 0) then 1 else 0)) ∧
    (countClears (request_with_retry envLateAuth 0).1 =
        (if is_auth_failure (envLateAuth.wire 0) then 1 else 0) ∧
      countReacquires (request_with_retry envLateAuth 0).1 =
        (if is_auth_failure (envLateAuth.wire 0) then 1 else 0)) :=
  ⟨claim_C2 envAuth, claim_C2 envLateAuth⟩

/-- C3: `_is_auth_failure` is true exactly for a 401, or a 403 whose
lower-cased upstream error code is in the invalid-token allow-list; and a
403 with code `ErrorAccessDenied` causes no cache clear and exactly one
HTTP call, the response being surfaced directly. -/
theorem claim_C3 :
    (∀ resp : HttpResponse,
      is_auth_failure resp = true ↔
        (resp.status = 401 ∨ (resp.status = 403 ∧
          (errorCodeLower resp = "invalidauthenticationtoken" ∨
           errorCodeLower resp = "unauthorized")))) ∧
    (∀ env : Env, (env.wire 0).status = 403 →
      errorCodeLower (env.wire 0) = "erroraccessdenied" →
      countClears (request_with_retry env 0).1 = 0 ∧
      countRequests (request_with_retry env 0).1 = 1 ∧
      (request_with_retry env 0).2.1 = some (env.wire 0)) := by
  constructor
  · intro resp
    by_cases h401 : resp.status = 401
    · simp [is_auth_failure, h401]
    · by_cases h403 : resp.status = 403
      · cases hb : resp.body with
        | none =>
          have hcode : errorCodeLower resp = "" := by simp [errorCodeLower, hb]
          simp [is_auth_failure, h401, h403, hb, hcode]
        | some j =>
          simp [is_auth_failure, h401, h403, hb, AUTH_FAILURE_CODES]
      · simp [is_auth_failure, h401, h403]
  · intro env h403 hcode
    have hna : is_auth_failure (env.wire 0) = false := by
      cases hb : (env.wire 0).body with
      | none => simp [is_auth_failure, h403, hb]
      | some j => simp [is_auth_failure, h403, hb, hcode, AUTH_FAILURE_CODES]
    have hnt : RETRY_STATUS_CODES.contains (env.wire 0).status = false := by
      rw [h403]; rfl
    have hrun := requestLoop_terminal env 2 0 0 none (Or.inr hna) hnt
    rw [request_with_retry_def, hrun]
    exact ⟨rfl, rfl, rfl⟩

theorem claim_C3_witness :
    (is_auth_failure r403ad = true ↔
      (r403ad.status = 401 ∨ (r403ad.status = 403 ∧
        (errorCodeLower r403ad = "invalidauthenticationtoken" ∨
         errorCodeLower r403ad = "unauthorized")))) ∧
    (countClears (request_with_retry env403 0).1 = 0 ∧
      countRequests (request_with_retry env403 0).1 = 1 ∧
      (request_with_retry env403 0).2.1 = some (env403.wire 0)) :=
  ⟨claim_C3.1 r403ad, claim_C3.2 env403 rfl rfl⟩

/-- C4 (counterexample): when the auth-retry's second request fails with
a different status and code, the executor surfaces that second response —
the built error has status 400 and code `SomeOtherCode`, not the original
401 / `InvalidAuthenticationToken` — refuting "the call surfaces a
NormalizedError carrying the original failing response's status and
code" for the retried-request-fails-again branch. -/
theorem claim_C4_counterexample :
    is_auth_failure (envRetryFails.wire 0) = true ∧
    envRetryFails.reauthOk = true ∧
    (envRetryFails.wire 0).status = 401 ∧
    (request_with_retry envRetryFails 0).2.1 = some r400code ∧
    (build_graph_error envRetryFails.parsedate envRetryFails.now r400code).status_code = 400 ∧
    (build_graph_error envRetryFails.parsedate envRetryFails.now r400code).code =
      some "SomeOtherCode" ∧
    (build_graph_error envRetryFails.parsedate envRetryFails.now
      (envRetryFails.wire 0)).code = some "InvalidAuthenticationToken" :=
  ⟨rfl, rfl, rfl, rfl, rfl, rfl, rfl⟩

/-- C4 (amended): when re-acquisition raises `AuthenticationRequired` the
executor returns the original failing response, so the caller gets its
status and code; when re-acquisition succeeds and the retried request
fails again (non-transiently) the executor returns that second response;
in either case a response is always surfaced, never the unhandled
signal. -/
theorem claim_C4 :
    (∀ env : Env, is_auth_failure (env.wire 0) = true → env.reauthOk = false →
      (request_with_retry env 0).2.1 = some (env.wire 0)) ∧
    (∀ env : Env, is_auth_failure (env.wire 0) = true → env.reauthOk = true →
      RETRY_STATUS_CODES.contains (env.wire 1).status = false →
      (request_with_retry env 0).2.1 = some (env.wire 1)) ∧
    (∀ env : Env, ((request_with_retry env 0).2.1).isSome = true) := by
  refine ⟨?_, ?_, ?_⟩
  · intro env haf hok
    rw [request_with_retry_def, requestLoop_succ_def,
      if_pos (by simp [haf]), if_neg (by simp [hok])]
  · intro env haf hok hnt
    rw [request_with_retry_def, requestLoop_succ_def,
      if_pos (by simp [haf]), if_pos hok]
    have hterm : requestLoop env 2 (0 + 1) (0 + 1) (some (env.wire 0)) =
        ([.httpRequest (0 + 1)], some (env.wire (0 + 1)), (0 + 1) + 1) :=
      requestLoop_terminal env 1 (0 + 1) (0 + 1) (some (env.wire 0))
        (Or.inl (by omega)) (by simpa using hnt)
    rw [hterm]
  · intro env
    rw [request_with_retry_def]
    exact requestLoop_isSome env 2 0 0 none

theorem claim_C4_witness :
    ((request_with_retry envAuthFail 0).2.1 = some (envAuthFail.wire 0)) ∧
    ((request_with_retry envRetryFails 0).2.1 = some (envRetryFails.wire 1)) ∧
    ((request_with_retry envT 0).2.1).isSome = true :=
  ⟨claim_C4.1 envAuthFail rfl rfl, claim_C4.2.1 envRetryFails rfl rfl rfl,
    claim_C4.2.2 envT⟩

/-- C10: when all `MAX_RETRIES` attempts return a transient status, the
executor sleeps after every attempt including the final one —
`MAX_RETRIES` sleeps in total, the trace ends in a sleep (no request
follows the last backoff) — and then returns the last response. -/
theorem claim_C10 : ∀ env : Env,
    (∀ i, i < MAX_RETRIES → RETRY_STATUS_CODES.contains (env.wire i).status = true) →
    countSleeps (request_with_retry env 0).1 = MAX_RETRIES ∧
    (∃ d, (request_with_retry env 0).1.getLast? = some (.backoffSleep d)) ∧
    (request_with_retry env 0).2.1 = some (env.wire (MAX_RETRIES - 1)) := by
  intro env h
  have hrun := requestLoop_transient env 2 0 0 none
    (fun i hi => by simpa using h i (by simp only [MAX_RETRIES]; omega))
  rw [request_with_retry_def, hrun]
  refine ⟨countSleeps_transientTrace env (2 + 1) 0 0, ?_, rfl⟩
  exact transientTrace_getLast env 2 0 0

theorem claim_C10_witness :
    countSleeps (request_with_retry envT 0).1 = MAX_RETRIES ∧
    (∃ d, (request_with_retry envT 0).1.getLast? = some (.backoffSleep d)) ∧
    (request_with_retry envT 0).2.1 = some (envT.wire (MAX_RETRIES - 1)) :=
  claim_C10 envT (fun _ _ => rfl)

/-- Closed form of `get_all` over a wire of successful pages. -/
theorem get_all_ok (env : Env) (pgs : Nat → Json)
    (hw : ∀ i, env.wire i = respOf (pgs i)) (maxPages : Nat) :
    get_all env 0 maxPages =
      ((List.range' 0
          ((collectPages pgs (maxPages - 1) 1 (pgs 0).nextLinkField (pgs 0).items).2.2 + 1)).map
          .httpRequest,
        .ok (((pgs 0).setField "value"
          (.arr (collectPages pgs (maxPages - 1) 1
            (pgs 0).nextLinkField (pgs 0).items).1)).removeField "@odata.nextLink"),
        1 + (collectPages pgs (maxPages - 1) 1 (pgs 0).nextLinkField (pgs 0).items).2.2) := by
  have hfirst := get_ok env pgs hw 0
  have hloop := getAllLoop_ok env pgs hw (maxPages - 1) (0 + 1)
    (pgs 0).nextLinkField (pgs 0).items
  simp only [get_all, hfirst, hloop]
  simp [List.range'_succ]

/-- C5: `get_all` fetches the first page and then follows cursors,
concatenating the item arrays of successive pages in order, until a page
has no cursor or `max_pages` pages have been fetched (`collectPages` is
that stopping rule, counting the pages fetched); the returned object has
no cursor key; with 2 pages of 1 item each and no cursor on page 2 the
result has exactly the 2 items and 2 HTTP calls; and with cursors on
every page and `max_pages = 2` it issues exactly 2 HTTP calls, returns
the 2 accumulated items, and does not raise. -/
theorem claim_C5 :
    (∀ (env : Env) (pgs : Nat → Json) (maxPages : Nat),
      (∀ i, env.wire i = respOf (pgs i)) →
      get_all env 0 maxPages =
        ((List.range' 0
            ((collectPages pgs (maxPages - 1) 1 (pgs 0).nextLinkField (pgs 0).items).2.2 + 1)).map
            .httpRequest,
          .ok (((pgs 0).setField "value"
            (.arr (collectPages pgs (maxPages - 1) 1
              (pgs 0).nextLinkField (pgs 0).items).1)).removeField "@odata.nextLink"),
          1 + (collectPages pgs (maxPages - 1) 1 (pgs 0).nextLinkField (pgs 0).items).2.2)) ∧
    (∀ (env : Env) (pgs : Nat → Json) (maxPages : Nat) (d : Json),
      (∀ i, env.wire i = respOf (pgs i)) →
      (get_all env 0 maxPages).2.1 = .ok d →
      d.getField "@odata.nextLink" = none) ∧
    (get_all envPagesA 0 =
      ([.httpRequest 0, .httpRequest 1],
        .ok (.obj [("value", .arr [.str "x", .str "y"])]), 2)) ∧
    (get_all envPagesB 0 2 =
      ([.httpRequest 0, .httpRequest 1],
        .ok (.obj [("value", .arr [.str "x", .str "x"])]), 2)) := by
  refine ⟨?_, ?_, rfl, rfl⟩
  · intro env pgs maxPages hw
    exact get_all_ok env pgs hw maxPages
  · intro env pgs maxPages d hw hok
    rw [get_all_ok env pgs hw maxPages] at hok
    simp only [CallResult.ok.injEq] at hok
    rw [← hok]
    exact removeField_getField _ _

theorem claim_C5_witness :
    (get_all envPagesA 0 10 =
      ([.httpRequest 0, .httpRequest 1],
        .ok (.obj [("value", .arr [.str "x", .str "y"])]), 2)) ∧
    Json.getField (.obj [("value", .arr [.str "x", .str "y"])]) "@odata.nextLink" = none :=
  ⟨(claim_C5.1 envPagesA pgsA 10 (fun _ => rfl)).trans rfl,
    claim_C5.2.1 envPagesA pgsA 10 (.obj [("value", .arr [.str "x", .str "y"])])
      (fun _ => rfl) rfl⟩

/-- C6 (counterexample): `"-5"` is neither a non-negative decimal integer
nor an HTTP-date (the date oracle rejects everything here), yet
`_parse_retry_after` returns 0 rather than `None`: Python `int("-5")`
succeeds and `max(int(value), 0)` clamps it. -/
theorem claim_C6_counterexample :
    pyInt "-5" = some (-5) ∧
    parse_retry_after (fun _ => none) 0 (some "-5") = some 0 ∧
    parse_retry_after (fun _ => none) 0 (some "-5") ≠ none :=
  ⟨rfl, rfl, by decide⟩

/-- C6 (amended): `"30" ↦ 30` and `"0" ↦ 0`; an HTTP-date maps to
`max(date - now, 0)` (a past date yields 0); any decimal integer —
negative ones included, clamped to 0 — short-circuits date parsing with
`max(n, 0)`; an input that is neither a decimal integer nor an HTTP-date
yields `None`; and a present result is always ≥ 0. -/
theorem claim_C6 :
    (∀ (pd : String → Option Int) (t : Int),
      parse_retry_after pd t (some "30") = some 30) ∧
    (∀ (pd : String → Option Int) (t : Int),
      parse_retry_after pd t (some "0") = some 0) ∧
    (∀ (pd : String → Option Int) (t : Int) (s : String) (d : Int),
      pyInt s = none → pd s = some d →
      parse_retry_after pd t (some s) = some (max (d - t) 0)) ∧
    (∀ (pd : String → Option Int) (t : Int) (s : String) (d : Int),
      pyInt s = none → pd s = some d → d ≤ t →
      parse_retry_after pd t (some s) = some 0) ∧
    (∀ (pd : String → Option Int) (t : Int) (s : String) (n : Int),
      pyInt s = some n → parse_retry_after pd t (some s) = some (max n 0)) ∧
    (∀ (pd : String → Option Int) (t : Int) (s : String),
      pyInt s = none → pd s = none → parse_retry_after pd t (some s) = none) ∧
    (∀ (pd : String → Option Int) (t : Int) (v : Option String) (r : Int),
      parse_retry_after pd t v = some r → 0 ≤ r) := by
  refine ⟨fun pd t => rfl, fun pd t => rfl, ?_, ?_, ?_, ?_, ?_⟩
  · intro pd t s d hint hdate
    simp [parse_retry_after, hint, hdate]
  · intro pd t s d hint hdate hle
    have hmax : max (d - t) 0 = 0 := max_eq_right (by omega)
    simp [parse_retry_after, hint, hdate, hmax]
  · intro pd t s n hint
    simp [parse_retry_after, hint]
  · intro pd t s hint hdate
    simp [parse_retry_after, hint, hdate]
  · intro pd t v r h
    cases v with
    | none => exact absurd h (by simp [parse_retry_after])
    | some s =>
      simp only [parse_retry_after] at h
      cases hint : pyInt s with
      | some n =>
        rw [hint] at h
        simp only [Option.some.injEq] at h
        exact h ▸ le_max_right n 0
      | none =>
        rw [hint] at h
        cases hdate : pd s with
        | some dd =>
          rw [hdate] at h
          simp only [Option.some.injEq] at h
          exact h ▸ le_max_right (dd - t) 0
        | none => rw [hdate] at h; exact absurd h (by simp)

theorem claim_C6_witness :
    parse_retry_after (fun _ => none) 0 (some "30") = some 30 ∧
    parse_retry_after (fun _ => none) 0 (some "0") = some 0 ∧
    parse_retry_after (fun s => if s = "D" then some 100 else none) 150 (some "D") = some 0 ∧
    parse_retry_after (fun s => if s = "D" then some 100 else none) 40 (some "D") =
      some (max (100 - 40) 0) ∧
    parse_retry_after (fun _ => none) 0 (some "not-a-number-or-date") = none := by
  obtain ⟨h30, h0, hdate, hclamp, _hint, hnone, _hpos⟩ := claim_C6
  exact ⟨h30 _ _, h0 _ _,
    hclamp _ _ "D" 100 rfl rfl (by omega),
    hdate _ _ "D" 100 rfl rfl,
    hnone _ _ "not-a-number-or-date" rfl rfl⟩

/-- C7 (counterexample): an error envelope whose `message` is the empty
string does not supply that message — Python's `err.get("message") or
message` is falsy on `""` — so the built error degrades to
`"HTTP 400"` while still taking the envelope's code. -/
theorem claim_C7_counterexample :
    build_graph_error (fun _ => none) 0 respEnvEmptyMsg =
      { status_code := 400, message := "HTTP 400", code := some "X" } ∧
    ("HTTP 400" : String) ≠ "" :=
  ⟨rfl, by decide⟩

/-- C7 (amended): building the error never fails (the builder is total by
construction) and follows the fallback chain — a nested error envelope
supplies the code, and the message when the envelope's message is a
non-empty string (an absent or empty envelope message falls back to
`"HTTP <status>"` with the code still taken); a top-level `message`
string with no nested error object is used with `code = None`; an absent
or invalid JSON body yields `"HTTP <status>"`. -/
theorem claim_C7 :
    (∀ (pd : String → Option Int) (t : Int) (resp : HttpResponse)
        (fields errFields : List (String × Json)) (c m : String),
      resp.body = some (.obj fields) →
      fields.lookup "error" = some (.obj errFields) →
      errFields.lookup "code" = some (.str c) →
      errFields.lookup "message" = some (.str m) → m ≠ "" →
      (build_graph_error pd t resp).code = some c ∧
      (build_graph_error pd t resp).message = m) ∧
    (∀ (pd : String → Option Int) (t : Int) (resp : HttpResponse)
        (fields errFields : List (String × Json)) (c : String),
      resp.body = some (.obj fields) →
      fields.lookup "error" = some (.obj errFields) →
      errFields.lookup "code" = some (.str c) →
      errFields.lookup "message" = some (.str "") →
      (build_graph_error pd t resp).code = some c ∧
      (build_graph_error pd t resp).message = httpFallbackMessage resp.status) ∧
    (∀ (pd : String → Option Int) (t : Int) (resp : HttpResponse)
        (fields : List (String × Json)) (m : String),
      resp.body = some (.obj fields) →
      (∀ ef : List (String × Json), fields.lookup "error" ≠ some (.obj ef)) →
      fields.lookup "message" = some (.str m) →
      (build_graph_error pd t resp).message = m ∧
      (build_graph_error pd t resp).code = none) ∧
    (∀ (pd : String → Option Int) (t : Int) (resp : HttpResponse),
      resp.body = none →
      (build_graph_error pd t resp).message = httpFallbackMessage resp.status ∧
      (build_graph_error pd t resp).code = none) := by
  refine ⟨?_, ?_, ?_, ?_⟩
  · intro pd t resp fields errFields c m hb herr hc hm hne
    constructor <;> simp [build_graph_error, hb, herr, hc, hm, hne]
  · intro pd t resp fields errFields c hb herr hc hm
    constructor <;> simp [build_graph_error, hb, herr, hc, hm]
  · intro pd t resp fields m hb hno hm
    cases he : fields.lookup "error" with
    | none => constructor <;> simp [build_graph_error, hb, he, hm]
    | some j =>
      cases j with
      | obj ef => exact absurd he (hno ef)
      | null => constructor <;> simp [build_graph_error, hb, he, hm]
      | bool b => constructor <;> simp [build_graph_error, hb, he, hm]
      | num n => constructor <;> simp [build_graph_error, hb, he, hm]
      | str s => constructor <;> simp [build_graph_error, hb, he, hm]
      | arr xs => constructor <;> simp [build_graph_error, hb, he, hm]
  · intro pd t resp hb
    constructor <;> simp [build_graph_error, hb]

theorem claim_C7_witness :
    ((build_graph_error (fun _ => none) 0 r403ad).code = some "ErrorAccessDenied" ∧
      (build_graph_error (fun _ => none) 0 r403ad).message = "nope") ∧
    ((build_graph_error (fun _ => none) 0 respEnvEmptyMsg).code = some "X" ∧
      (build_graph_error (fun _ => none) 0 respEnvEmptyMsg).message = "HTTP 400") ∧
    ((build_graph_error (fun _ => none) 0 respTopMsg).message = "Bad request parameter" ∧
      (build_graph_error (fun _ => none) 0 respTopMsg).code = none) ∧
    ((build_graph_error (fun _ => none) 0 respBad).message = "HTTP 502" ∧
      (build_graph_error (fun _ => none) 0 respBad).code = none) := by
  obtain ⟨h1, h2, h3, h4⟩ := claim_C7
  refine ⟨h1 _ _ r403ad _ _ "ErrorAccessDenied" "nope" rfl rfl rfl rfl (by decide),
    h2 _ _ respEnvEmptyMsg _ _ "X" rfl rfl rfl rfl,
    h3 _ _ respTopMsg _ "Bad request parameter" rfl ?_ rfl,
    h4 _ _ respBad rfl⟩
  intro ef h
  exact Option.noConfusion h

/-- C8 (counterexample): `patch` checks only for an empty byte body, not
for status 202 — a 202 response with the JSON body `{"a": 1}` makes
`patch` return that parsed body, not `{}`. -/
theorem claim_C8_counterexample :
    (env202.wire 0).status = 202 ∧
    (patch env202 0).2.1 = .ok (.obj [("a", .num 1)]) ∧
    Json.obj [("a", .num 1)] ≠ Json.obj [] :=
  ⟨rfl, rfl, by simp⟩

/-- C8 (amended): for a successful final response, `post` returns `{}`
without JSON parsing when the status is 202 or the byte body is empty,
while `patch` does so only when the byte body is empty (a 202 with a
non-empty body is JSON-parsed and returned); and every final
error-status response makes `get`/`post`/`patch`/`delete` raise the
normalized error built from it. -/
theorem claim_C8 :
    (∀ (env : Env) (r : HttpResponse),
      (request_with_retry env 0).2.1 = some r →
      isErrorStatus r.status = false →
      (r.status = 202 ∨ r.contentEmpty = true) →
      (post env 0).2.1 = .ok (.obj [])) ∧
    (∀ (env : Env) (r : HttpResponse),
      (request_with_retry env 0).2.1 = some r →
      isErrorStatus r.status = false →
      r.contentEmpty = true →
      (patch env 0).2.1 = .ok (.obj [])) ∧
    (∀ (env : Env) (r : HttpResponse),
      (request_with_retry env 0).2.1 = some r →
      isErrorStatus r.status = true →
      (get env 0).2.1 = .graphError (build_graph_error env.parsedate env.now r) ∧
      (post env 0).2.1 = .graphError (build_graph_error env.parsedate env.now r) ∧
      (patch env 0).2.1 = .graphError (build_graph_error env.parsedate env.now r) ∧
      (deleteVerb env 0).2.1 = .graphError (build_graph_error env.parsedate env.now r)) := by
  refine ⟨?_, ?_, ?_⟩
  · intro env r hr herr hor
    simp only [post, runVerb, hr]
    rw [if_neg (by simp [herr])]
    rcases hor with h202 | hempty
    · simp [h202]
    · simp [hempty]
  · intro env r hr herr hempty
    simp only [patch, runVerb, hr]
    rw [if_neg (by simp [herr])]
    simp [hempty]
  · intro env r hr herr
    refine ⟨?_, ?_, ?_, ?_⟩ <;>
      · simp only [get, post, patch, deleteVerb, runVerb, hr]
        rw [if_pos herr]

theorem claim_C8_witness :
    (post env202 0).2.1 = .ok (.obj []) ∧
    (patch env202e 0).2.1 = .ok (.obj []) ∧
    (get env404 0).2.1 =
      .graphError (build_graph_error env404.parsedate env404.now r404) := by
  obtain ⟨h1, h2, h3⟩ := claim_C8
  exact ⟨h1 env202 r202body rfl rfl (Or.inl rfl),
    h2 env202e r202empty rfl rfl rfl,
    (h3 env404 r404 rfl rfl).1⟩

/-- The `errorType` of `graph_error_response` as an if-chain over the
classifying conditions of the source, in evaluation order. -/
theorem graph_error_response_errorType (exc : GraphApiError) (fb : Option String) :
    (graph_error_response exc fb).errorType =
      (if exc.status_code = 401 ||
          ["invalidauthenticationtoken", "unauthorized"].contains (pyLower (exc.code.getD ""))
        then "auth_error"
        else if exc.status_code = 403 ||
            ["erroraccessdenied", "accessdenied"].contains (pyLower (exc.code.getD ""))
          then "permission_denied"
          else if exc.status_code = 404 ||
              ["erroritemnotfound", "resourcenotfound"].contains (pyLower (exc.code.getD ""))
            then "not_found"
            else if exc.status_code = 429 then "throttled"
              else if exc.status_code = 400 ||
                  pyStartsWith (pyLower (exc.code.getD "")) "errorinvalid"
                then "validation_error"
                else "graph_error") := by
  simp only [graph_error_response]
  split_ifs <;> rfl

/-- The pass-through fields of `graph_error_response`. -/
theorem graph_error_response_fields (exc : GraphApiError) (fb : Option String) :
    (graph_error_response exc fb).statusCode = exc.status_code ∧
    (graph_error_response exc fb).errorCode = truthyOpt exc.code ∧
    (graph_error_response exc fb).requestId = truthyOpt exc.request_id ∧
    (graph_error_response exc fb).retryAfterSeconds = exc.retry_after_seconds := by
  simp only [graph_error_response]
  exact ⟨trivial, trivial, trivial, trivial⟩

theorem authCond_iff (exc : GraphApiError) :
    ((exc.status_code = 401 ||
        ["invalidauthenticationtoken", "unauthorized"].contains (pyLower (exc.code.getD ""))) =
      true) ↔
    (exc.status_code = 401 ∨ pyLower (exc.code.getD "") = "invalidauthenticationtoken" ∨
      pyLower (exc.code.getD "") = "unauthorized") := by
  simp [List.contains]

theorem permCond_iff (exc : GraphApiError) :
    ((exc.status_code = 403 ||
        ["erroraccessdenied", "accessdenied"].contains (pyLower (exc.code.getD ""))) = true) ↔
    (exc.status_code = 403 ∨ pyLower (exc.code.getD "") = "erroraccessdenied" ∨
      pyLower (exc.code.getD "") = "accessdenied") := by
  simp [List.contains]

theorem nfCond_iff (exc : GraphApiError) :
    ((exc.status_code = 404 ||
        ["erroritemnotfound", "resourcenotfound"].contains (pyLower (exc.code.getD ""))) =
      true) ↔
    (exc.status_code = 404 ∨ pyLower (exc.code.getD "") = "erroritemnotfound" ∨
      pyLower (exc.code.getD "") = "resourcenotfound") := by
  simp [List.contains]

theorem valCond_iff (exc : GraphApiError) :
    ((exc.status_code = 400 || pyStartsWith (pyLower (exc.code.getD "")) "errorinvalid") =
      true) ↔
    (exc.status_code = 400 ∨
      pyStartsWith (pyLower (exc.code.getD "")) "errorinvalid" = true) := by
  simp

/-- C9 (counterexample): the tool layer classifies by `status == 401 or
code in {...}` at any status — a 500 response whose code is
`Unauthorized` is tagged `auth_error`, refuting "auth_error exactly when
the status is 401 or the status is 403 with an invalid-token code". -/
theorem claim_C9_counterexample :
    (graph_error_response
        { status_code := 500, message := "m", code := some "Unauthorized" } none).errorType =
      "auth_error" ∧
    ((500 : Nat) ≠ 401 ∧ (500 : Nat) ≠ 403) :=
  ⟨rfl, by decide⟩

/-- C9 (amended): the converter tags `auth_error` exactly when the status
is 401 or the lower-cased code is an invalid-token code (at any status);
`permission_denied` exactly when it is not an auth error and the status
is 403 (any code) or the code is an access-denied code; and
`validation_error` exactly when no earlier category applies and the
status is 400 or the code starts with `errorinvalid`.  The result always
carries one tag of the closed six-tag set, the status code, the optional
`errorCode`/`requestId` when present and non-empty, and
`retryAfterSeconds` whenever present. -/
theorem claim_C9 : ∀ (exc : GraphApiError) (fb : Option String),
    ((graph_error_response exc fb).errorType = "auth_error" ↔
      (exc.status_code = 401 ∨ pyLower (exc.code.getD "") = "invalidauthenticationtoken" ∨
        pyLower (exc.code.getD "") = "unauthorized")) ∧
    ((graph_error_response exc fb).errorType = "permission_denied" ↔
      (¬(exc.status_code = 401 ∨ pyLower (exc.code.getD "") = "invalidauthenticationtoken" ∨
          pyLower (exc.code.getD "") = "unauthorized") ∧
        (exc.status_code = 403 ∨ pyLower (exc.code.getD "") = "erroraccessdenied" ∨
          pyLower (exc.code.getD "") = "accessdenied"))) ∧
    ((graph_error_response exc fb).errorType = "validation_error" ↔
      (¬(exc.status_code = 401 ∨ pyLower (exc.code.getD "") = "invalidauthenticationtoken" ∨
          pyLower (exc.code.getD "") = "unauthorized") ∧
        ¬(exc.status_code = 403 ∨ pyLower (exc.code.getD "") = "erroraccessdenied" ∨
          pyLower (exc.code.getD "") = "accessdenied") ∧
        ¬(exc.status_code = 404 ∨ pyLower (exc.code.getD "") = "erroritemnotfound" ∨
          pyLower (exc.code.getD "") = "resourcenotfound") ∧
        ¬(exc.status_code = 429) ∧
        (exc.status_code = 400 ∨
          pyStartsWith (pyLower (exc.code.getD "")) "errorinvalid" = true))) ∧
    ((graph_error_response exc fb).errorType = "auth_error" ∨
      (graph_error_response exc fb).errorType = "permission_denied" ∨
      (graph_error_response exc fb).errorType = "not_found" ∨
      (graph_error_response exc fb).errorType = "throttled" ∨
      (graph_error_response exc fb).errorType = "validation_error" ∨
      (graph_error_response exc fb).errorType = "graph_error") ∧
    ((graph_error_response exc fb).statusCode = exc.status_code) ∧
    (∀ s : String, exc.code = some s → s ≠ "" →
      (graph_error_response exc fb).errorCode = some s) ∧
    (exc.code = none → (graph_error_response exc fb).errorCode = none) ∧
    (∀ s : String, exc.request_id = some s → s ≠ "" →
      (graph_error_response exc fb).requestId = some s) ∧
    ((graph_error_response exc fb).retryAfterSeconds = exc.retry_after_seconds) := by
  intro exc fb
  have hf := graph_error_response_fields exc fb
  have het := graph_error_response_errorType exc fb
  refine ⟨?_, ?_, ?_, ?_, hf.1, ?_, ?_, ?_, hf.2.2.2⟩
  · rw [het]
    split_ifs with h1 h2 h3 h4 h5
    · exact iff_of_true rfl ((authCond_iff exc).mp h1)
    all_goals
      exact iff_of_false (by decide) (fun hA => h1 ((authCond_iff exc).mpr hA))
  · rw [het]
    split_ifs with h1 h2 h3 h4 h5
    · exact iff_of_false (by decide) (fun h => h.1 ((authCond_iff exc).mp h1))
    · exact iff_of_true rfl
        ⟨fun hA => h1 ((authCond_iff exc).mpr hA), (permCond_iff exc).mp h2⟩
    all_goals
      exact iff_of_false (by decide) (fun h => h2 ((permCond_iff exc).mpr h.2))
  · rw [het]
    split_ifs with h1 h2 h3 h4 h5
    · exact iff_of_false (by decide) (fun h => h.1 ((authCond_iff exc).mp h1))
    · exact iff_of_false (by decide) (fun h => h.2.1 ((permCond_iff exc).mp h2))
    · exact iff_of_false (by decide) (fun h => h.2.2.1 ((nfCond_iff exc).mp h3))
    · exact iff_of_false (by decide) (fun h => h.2.2.2.1 h4)
    · exact iff_of_true rfl
        ⟨fun hA => h1 ((authCond_iff exc).mpr hA),
          fun hP => h2 ((permCond_iff exc).mpr hP),
          fun hN => h3 ((nfCond_iff exc).mpr hN),
          h4, (valCond_iff exc).mp h5⟩
    · exact iff_of_false (by decide)
        (fun h => h5 ((valCond_iff exc).mpr h.2.2.2.2))
  · rw [het]
    split_ifs <;> simp
  · intro s hs hne
    rw [hf.2.1, hs]
    simp [truthyOpt, hne]
  · intro hcn
    rw [hf.2.1, hcn]
    rfl
  · intro s hs hne
    rw [hf.2.2.1, hs]
    simp [truthyOpt, hne]

theorem claim_C9_witness :
    (graph_error_response excAD none).errorType = "permission_denied" ∧
    (graph_error_response excAD none).statusCode = 403 ∧
    (graph_error_response excAD none).errorCode = some "ErrorAccessDenied" := by
  obtain ⟨_hA, hP, _hV, _htags, hsc, hcode, _⟩ := claim_C9 excAD none
  exact ⟨hP.mpr ⟨by decide, Or.inl rfl⟩, hsc, hcode "ErrorAccessDenied" rfl (by decide)⟩

end OfficeAssistant
